import Mathlib

/-!
# Verification of the webhook registry (`src/webhooks/registry.ts`)

A shallow embedding of the webhook subscription/dispatch helper of the
shopify-api-js repository, together with theorems checking its
natural-language specification.

Modelling conventions:
* Machine strings are Lean `String`s; JS `===` on strings is Lean equality.
* Raw request bodies (Node `Buffer`s) are `List Nat` byte sequences.
* The Node crypto primitive `base64(HMAC-SHA256(secret, ·))` is abstracted as
  a function argument `hmacBase64 : List Nat → String` (the process-wide
  secret is baked into it).  `Buffer.toString('utf-8')` followed by
  `.update(str, 'utf8')` is modelled faithfully by `utf8Reencode` (WHATWG
  UTF-8 decode with replacement, then UTF-8 encode).
* The GraphQL transport is a collaborator: the existence check is passed in
  as an already-parsed `Except`-value, the upsert transport as a function
  from query text to an `Except`-response, so that transport failures and
  malformed responses are expressible and "no mutation was issued" is the
  statement that the outcome does not depend on that function.
* Mutable state (`this.webhookRegistry`) is threaded explicitly: `register`
  returns the new registry next to its `RegisterReturn`; on a propagated
  transport failure the registry comes back unchanged, mirroring the fact
  that in the source the store assignment is only reached when no `await`
  has thrown.
* Handler invocation (a side effect in the source) is made observable: the
  outcome of `process` records which handler value was called and with which
  arguments.
-/

namespace Webhooks

/-! ## JSON values and JavaScript truthiness -/

/-- A JSON-like value, used for GraphQL transport response bodies (the source
types them `any` / `unknown`). -/
inductive JsonValue where
  | jnull : JsonValue
  | jbool : Bool → JsonValue
  | jnum : Int → JsonValue
  | jstr : String → JsonValue
  | jarr : List JsonValue → JsonValue
  | jobj : List (String × JsonValue) → JsonValue

/-- JavaScript `Boolean(v)` on a JSON value. -/
def jsTruthyV : JsonValue → Bool
  | .jnull => false
  | .jbool b => b
  | .jnum n => decide (n ≠ 0)
  | .jstr s => decide (s ≠ "")
  | .jarr _ => true
  | .jobj _ => true

/-- JavaScript property access `v[key]`: `none` models `undefined`. -/
def jGet : JsonValue → String → Option JsonValue
  | .jobj fields, key =>
    match fields.find? (fun f => f.1 = key) with
    | some f => some f.2
    | none => none
  | _, _ => none

/-- Property access on a possibly-`undefined` value. -/
def jGetO : Option JsonValue → String → Option JsonValue
  | some v, key => jGet v key
  | none, _ => none

/-- JavaScript `Boolean(v)` where `v` may be `undefined`. -/
def jsTruthyO : Option JsonValue → Bool
  | none => false
  | some v => jsTruthyV v

/-- JavaScript truthiness of an optional string (`undefined` and `""` are
falsy), as used by `if (webhookId)` and the missing-header checks. -/
def jsFalsyStr : Option String → Bool
  | none => true
  | some s => decide (s = "")

/-- ASCII-range model of JavaScript `String.prototype.toLowerCase`. -/
def jsToLowerCase (s : String) : String := String.mk (s.data.map Char.toLower)

/-- ASCII-range model of JavaScript `String.prototype.toUpperCase`. -/
def jsToUpperCase (s : String) : String := String.mk (s.data.map Char.toUpper)

/-! ## WHATWG UTF-8 decoding with replacement, and encoding

`process` feeds the body to the HMAC as `body.toString('utf-8')` re-encoded
as UTF-8.  `Buffer.toString('utf-8')` follows the WHATWG decoder with
U+FFFD replacement for invalid sequences. -/

/-- Pending state of the WHATWG UTF-8 decoder. -/
structure Utf8State where
  codepoint : Nat
  needed : Nat
  lower : Nat
  upper : Nat
deriving DecidableEq, Repr

/-- Classification of a byte read in the initial decoder state. -/
inductive Utf8Start where
  | ascii : Nat → Utf8Start
  | start : Nat → Nat → Nat → Nat → Utf8Start
  | invalid : Utf8Start
deriving DecidableEq, Repr

/-- WHATWG UTF-8 decoder: handling of a byte in the initial state. -/
def utf8Classify (b : Nat) : Utf8Start :=
  if b ≤ 0x7F then .ascii b
  else if 0xC2 ≤ b ∧ b ≤ 0xDF then .start (b % 32) 1 0x80 0xBF
  else if b = 0xE0 then .start (b % 16) 2 0xA0 0xBF
  else if b = 0xED then .start (b % 16) 2 0x80 0x9F
  else if 0xE1 ≤ b ∧ b ≤ 0xEF then .start (b % 16) 2 0x80 0xBF
  else if b = 0xF0 then .start (b % 8) 3 0x90 0xBF
  else if b = 0xF4 then .start (b % 8) 3 0x80 0x8F
  else if 0xF1 ≤ b ∧ b ≤ 0xF3 then .start (b % 8) 3 0x80 0xBF
  else .invalid

/-- One step of the WHATWG UTF-8 decoder: emitted code points and new state. -/
def utf8Step (st : Option Utf8State) (b : Nat) : List Nat × Option Utf8State :=
  match st with
  | none =>
    match utf8Classify b with
    | .ascii c => ([c], none)
    | .start cp n lo hi => ([], some ⟨cp, n, lo, hi⟩)
    | .invalid => ([0xFFFD], none)
  | some s =>
    if s.lower ≤ b ∧ b ≤ s.upper then
      let cp := s.codepoint * 64 + (b % 64)
      if s.needed = 1 then ([cp], none)
      else ([], some ⟨cp, s.needed - 1, 0x80, 0xBF⟩)
    else
      -- replacement, then the byte is reprocessed in the initial state
      match utf8Classify b with
      | .ascii c => ([0xFFFD, c], none)
      | .start cp n lo hi => ([0xFFFD], some ⟨cp, n, lo, hi⟩)
      | .invalid => ([0xFFFD, 0xFFFD], none)

/-- WHATWG UTF-8 decode with replacement: byte list to code-point list. -/
def utf8DecodeAux (st : Option Utf8State) : List Nat → List Nat
  | [] => if st.isSome then [0xFFFD] else []
  | b :: rest =>
    let p := utf8Step st b
    p.1 ++ utf8DecodeAux p.2 rest

/-- UTF-8 encoding of a Unicode code point. -/
def utf8EncodeChar (c : Nat) : List Nat :=
  if c ≤ 0x7F then [c]
  else if c ≤ 0x7FF then [0xC0 + c / 64, 0x80 + c % 64]
  else if c ≤ 0xFFFF then [0xE0 + c / 4096, 0x80 + c / 64 % 64, 0x80 + c % 64]
  else [0xF0 + c / 262144, 0x80 + c / 4096 % 64, 0x80 + c / 64 % 64, 0x80 + c % 64]

/-- The byte sequence actually hashed by `process` for a given raw body:
`body.toString('utf-8')` re-encoded as UTF-8 (lines 278–280 of the source).
For a body that is valid UTF-8 this is the body itself; for invalid bytes it
differs (replacement characters). -/
def utf8Reencode (body : List Nat) : List Nat :=
  (utf8DecodeAux none body).flatMap utf8EncodeChar

/-! ## Data model of the registry module -/

/-- Model of `DeliveryMethod` enum of the source. -/
inductive DeliveryMethod where
  | http : DeliveryMethod
  | eventbridge : DeliveryMethod
deriving DecidableEq, Repr

/-- Model of `WebhookRegistryEntry`.  The handler function is an opaque-to-the-module
value of type `α`; the module only stores and later invokes it. -/
structure WebhookRegistryEntry (α : Type) where
  path : String
  topic : String
  webhookHandler : α
deriving DecidableEq, Repr

/-- Model of `WebhookCheckResponseNode.node`: one subscription returned by the
existence check. -/
structure WebhookCheckNode where
  id : String
  callbackUrl : String
deriving DecidableEq, Repr

/-- Model of `WebhookCheckResponseNode`: an edge of the existence-check response. -/
structure WebhookCheckEdge where
  node : WebhookCheckNode
deriving DecidableEq, Repr

/-- Model of `RegisterReturn` of the source: success flag plus raw response payload. -/
structure RegisterReturn where
  success : Bool
  result : JsonValue

/-- Modelled from the spec: `ShopifyErrors.InvalidWebhookError` is raised by
`process` on missing headers; the error module `src/error.ts` is not among
the provided sources, so only the constructor carrying the message is
modelled. -/
inductive ShopifyError where
  | invalidWebhookError : String → ShopifyError
deriving DecidableEq, Repr

/-- Modelled from the spec: `StatusCode.Ok` of the external
`@shopify/network` package (the "ok" status). -/
def statusCodeOk : Nat := 200

/-- Modelled from the spec: `StatusCode.Forbidden` of the external
`@shopify/network` package (the "forbidden" status). -/
def statusCodeForbidden : Nat := 403

/-- Modelled from the spec: `ShopifyHeader.Hmac` of `src/types.ts` (not among
the provided sources) — the signature header name. -/
def shopifyHeaderHmac : String := "X-Shopify-Hmac-Sha256"

/-- Modelled from the spec: `ShopifyHeader.Topic` of `src/types.ts` (not
among the provided sources) — the topic header name. -/
def shopifyHeaderTopic : String := "X-Shopify-Topic"

/-- Modelled from the spec: `ShopifyHeader.Domain` of `src/types.ts` (not
among the provided sources) — the source-domain header name. -/
def shopifyHeaderDomain : String := "X-Shopify-Shop-Domain"

/-- Modelled from the spec: `ShopifyUtilities.safeCompare` (in
`src/utils`, not among the provided sources).  Per the spec it is an
equality check of the two strings performed in constant time; timing is not
observable in this embedding, so only the boolean result is modelled. -/
def safeCompare (a b : String) : Bool := a = b

/-! ## Query builders and success interpretation -/

/-- Model of `buildCheckQuery` (source lines 129–140), text reproduced verbatim. -/
def buildCheckQuery (topic : String) : String :=
  "\x7b\n    webhookSubscriptions(first: 1, topics: " ++ topic ++
  ") \x7b\n      edges \x7b\n        node \x7b\n          id\n          callbackUrl\n        \x7d\n      \x7d\n    \x7d\n  \x7d"

/-- Model of `buildQuery` (source lines 142–181).  `webhookId` is checked for JS
truthiness (`if (webhookId)`), so an empty-string id counts as absent. -/
def buildQuery (topic address : String) (deliveryMethod : DeliveryMethod)
    (webhookId : Option String) : String :=
  let identifier : String :=
    if ¬ jsFalsyStr webhookId then "id: \"" ++ webhookId.getD "" ++ "\""
    else "topic: " ++ topic
  let mutationName : String :=
    match deliveryMethod with
    | .http =>
      if ¬ jsFalsyStr webhookId then "webhookSubscriptionUpdate"
      else "webhookSubscriptionCreate"
    | .eventbridge =>
      if ¬ jsFalsyStr webhookId then "eventBridgeWebhookSubscriptionUpdate"
      else "eventBridgeWebhookSubscriptionCreate"
  let webhookSubscriptionArgs : String :=
    match deliveryMethod with
    | .http => "\x7bcallbackUrl: \"" ++ address ++ "\"\x7d"
    | .eventbridge => "\x7barn: \"" ++ address ++ "\"\x7d"
  "\n    mutation webhookSubscription \x7b\n      " ++ mutationName ++
  "(" ++ identifier ++ ", webhookSubscription: " ++ webhookSubscriptionArgs ++
  ") \x7b\n        userErrors \x7b\n          field\n          message\n        \x7d\n        webhookSubscription \x7b\n          id\n        \x7d\n      \x7d\n    \x7d\n  "

/-- Model of `isSuccess` (source lines 94–127): the response must contain the
`data.<mutationName>.webhookSubscription` chain, every link truthy. -/
def isSuccess (result : JsonValue) (deliveryMethod : DeliveryMethod)
    (webhookId : Option String) : Bool :=
  match deliveryMethod with
  | .http =>
    if ¬ jsFalsyStr webhookId then
      jsTruthyO (jGet result "data") &&
      jsTruthyO (jGetO (jGet result "data") "webhookSubscriptionUpdate") &&
      jsTruthyO (jGetO (jGetO (jGet result "data") "webhookSubscriptionUpdate") "webhookSubscription")
    else
      jsTruthyO (jGet result "data") &&
      jsTruthyO (jGetO (jGet result "data") "webhookSubscriptionCreate") &&
      jsTruthyO (jGetO (jGetO (jGet result "data") "webhookSubscriptionCreate") "webhookSubscription")
  | .eventbridge =>
    if ¬ jsFalsyStr webhookId then
      jsTruthyO (jGet result "data") &&
      jsTruthyO (jGetO (jGet result "data") "eventBridgeWebhookSubscriptionUpdate") &&
      jsTruthyO (jGetO (jGetO (jGet result "data") "eventBridgeWebhookSubscriptionUpdate") "webhookSubscription")
    else
      jsTruthyO (jGet result "data") &&
      jsTruthyO (jGetO (jGet result "data") "eventBridgeWebhookSubscriptionCreate") &&
      jsTruthyO (jGetO (jGetO (jGet result "data") "eventBridgeWebhookSubscriptionCreate") "webhookSubscription")

/-! ## register -/

/-- The `webhookId` taken from the existence-check response
(source lines 202–205): the id of the first edge, if any. -/
def webhookIdOf (edges : List WebhookCheckEdge) : Option String :=
  match edges with
  | [] => none
  | e :: _ => some e.node.id

/-- The `mustRegister` flag (source lines 203–209): registration is skipped
exactly when the first returned subscription's callback address already
equals the target address. -/
def mustRegisterOf (edges : List WebhookCheckEdge) (address : String) : Bool :=
  match edges with
  | [] => true
  | e :: _ => decide (e.node.callbackUrl ≠ address)

/-- Model of `WebhooksRegistry.register` (source lines 186–232).

Inputs beyond the `RegisterOptions` fields: `hostName` models
`Context.HOST_NAME`; `registry` is the current `this.webhookRegistry`;
`checkResult` is the (parsed) outcome of the existence-check transport call;
`transportMutation` maps upsert-mutation query text to the transport
outcome.  Output: the source's `RegisterReturn` (`Except.error` when an
`await` throws, propagating the transport failure) paired with the resulting
`this.webhookRegistry`. -/
def register {α : Type} (hostName topic path : String) (webhookHandler : α)
    (deliveryMethod : DeliveryMethod)
    (registry : List (WebhookRegistryEntry α))
    (checkResult : Except String (List WebhookCheckEdge))
    (transportMutation : String → Except String JsonValue) :
    Except String RegisterReturn × List (WebhookRegistryEntry α) :=
  let address := "https://" ++ hostName ++ path
  match checkResult with
  | .error e => (.error e, registry)
  | .ok edges =>
    let webhookId := webhookIdOf edges
    let mustRegister := mustRegisterOf edges address
    let attempt : Except String (Bool × JsonValue) :=
      if mustRegister then
        match transportMutation (buildQuery topic address deliveryMethod webhookId) with
        | .error e => .error e
        | .ok respBody => .ok (isSuccess respBody deliveryMethod webhookId, respBody)
      else
        .ok (true, JsonValue.jobj [])
    match attempt with
    | .error e => (.error e, registry)
    | .ok (success, body) =>
      (.ok ⟨success, body⟩,
        if success then
          registry.filter (fun item => item.topic ≠ topic) ++
            [⟨path, topic, webhookHandler⟩]
        else registry)

/-! ## process -/

/-- The three headers extracted by the `for (const header in headers)` loop
(source lines 235–252). -/
structure ExtractedHeaders where
  hmac : Option String
  topic : Option String
  domain : Option String
deriving DecidableEq, Repr

/-- The header-extraction loop (source lines 235–252): case-insensitive
match on the three Shopify header names, later entries overwriting earlier
ones, empty header names skipped (`if (header)`). -/
def extractHeaders (headers : List (String × String)) : ExtractedHeaders :=
  headers.foldl
    (fun acc kv =>
      if kv.1 = "" then acc
      else if jsToLowerCase kv.1 = jsToLowerCase shopifyHeaderHmac then
        { acc with hmac := some kv.2 }
      else if jsToLowerCase kv.1 = jsToLowerCase shopifyHeaderTopic then
        { acc with topic := some kv.2 }
      else if jsToLowerCase kv.1 = jsToLowerCase shopifyHeaderDomain then
        { acc with domain := some kv.2 }
      else acc)
    ⟨none, none, none⟩

/-- The `missingHeaders` list (source lines 254–263), in source order. -/
def missingHeadersOf (headers : List (String × String)) : List String :=
  let e := extractHeaders headers
  (if jsFalsyStr e.hmac then [shopifyHeaderHmac] else []) ++
  (if jsFalsyStr e.topic then [shopifyHeaderTopic] else []) ++
  (if jsFalsyStr e.domain then [shopifyHeaderDomain] else [])

/-- The message of the error thrown on missing headers
(source lines 266–270). -/
def missingHeadersMessage (headers : List (String × String)) : String :=
  "Missing one or more of the required HTTP headers to process webhooks: [" ++
  String.intercalate ", " (missingHeadersOf headers) ++ "]"

/-- The signature check of `process` (source lines 278–282): the provided
signature is compared against `base64(HMAC-SHA256(secret, ·))` of the
UTF-8 re-encoding of the body (`body.toString('utf-8')` hashed as UTF-8). -/
def webhookVerify (hmacBase64 : List Nat → String) (body : List Nat)
    (sig : String) : Bool :=
  safeCompare (hmacBase64 (utf8Reencode body)) sig

/-- Canonical topic form used for the registry lookup (source line 283):
`topic.toUpperCase().replace(/\//g, '_')`. -/
def canonicalTopic (topic : String) : String :=
  String.mk ((jsToUpperCase topic).data.map (fun c => if c = '/' then '_' else c))

/-- Outcome of `process`: the source's `ProcessReturn` (status code and
response headers) extended with the observable handler invocation —
`some (handler, canonical topic, domain, body)` exactly when the source
calls `webhookEntry.webhookHandler(graphqlTopic, domain, body)`. -/
structure ProcessOutcome (α : Type) where
  statusCode : Nat
  respHeaders : List (String × String)
  handlerCall : Option (α × String × String × List Nat)
deriving DecidableEq, Repr

/-- Model of `WebhooksRegistry.process` (source lines 234–295).  `hmacBase64`
abstracts `base64(HMAC-SHA256(Context.API_SECRET_KEY, ·))`; `registry` is
`this.webhookRegistry`.  `Except.error` models the thrown
`InvalidWebhookError`. -/
def process {α : Type} (hmacBase64 : List Nat → String)
    (registry : List (WebhookRegistryEntry α))
    (headers : List (String × String)) (body : List Nat) :
    Except ShopifyError (ProcessOutcome α) :=
  let e := extractHeaders headers
  if missingHeadersOf headers ≠ [] then
    .error (.invalidWebhookError (missingHeadersMessage headers))
  else
    if webhookVerify hmacBase64 body (e.hmac.getD "") then
      let graphqlTopic := canonicalTopic (e.topic.getD "")
      match registry.find? (fun entry => entry.topic = graphqlTopic) with
      | some entry =>
        .ok ⟨statusCodeOk, [],
          some (entry.webhookHandler, graphqlTopic, e.domain.getD "", body)⟩
      | none => .ok ⟨statusCodeForbidden, [], none⟩
    else
      .ok ⟨statusCodeForbidden, [], none⟩

/-- Model of `WebhooksRegistry.isWebhookPath` (source lines 297–299).  A pure
function of the registry: it reads `this.webhookRegistry` and performs no
mutation. -/
def isWebhookPath {α : Type} (registry : List (WebhookRegistryEntry α))
    (path : String) : Bool :=
  (registry.find? (fun entry => entry.path = path)).isSome

end Webhooks

namespace Webhooks

/-! ## Spec-side definitions for the refinement claim C9 -/

/-- Written from the spec's words: the mutation name determined by the
delivery method and identifier presence. -/
def specMutationName (dm : DeliveryMethod) (idPresent : Bool) : String :=
  match dm, idPresent with
  | .http, false => "webhookSubscriptionCreate"
  | .http, true => "webhookSubscriptionUpdate"
  | .eventbridge, false => "eventBridgeWebhookSubscriptionCreate"
  | .eventbridge, true => "eventBridgeWebhookSubscriptionUpdate"

/-- Written from the spec's words: the subscription-argument field name
determined by the delivery method. -/
def specArgField : DeliveryMethod → String
  | .http => "callbackUrl"
  | .eventbridge => "arn"

/-- The fixed textual shape of the upsert mutation, with the mutation name,
identifier argument and subscription-argument object plugged in. -/
def queryShape (mutationName identifier args : String) : String :=
  "\n    mutation webhookSubscription \x7b\n      " ++ mutationName ++
  "(" ++ identifier ++ ", webhookSubscription: " ++ args ++
  ") \x7b\n        userErrors \x7b\n          field\n          message\n        \x7d\n        webhookSubscription \x7b\n          id\n        \x7d\n      \x7d\n    \x7d\n  "

/-- The identifier argument of the upsert mutation: by id when a (truthy)
webhook id is at hand, by topic otherwise. -/
def identifierText (topic : String) (webhookId : Option String) : String :=
  if ¬ jsFalsyStr webhookId then "id: \"" ++ webhookId.getD "" ++ "\""
  else "topic: " ++ topic

/-! ## Basic lemmas -/

theorem jsFalsyStr_false_iff (o : Option String) :
    jsFalsyStr o = false ↔ ∃ s, o = some s ∧ s ≠ "" := by
  cases o with
  | none => simp [jsFalsyStr]
  | some s => simp [jsFalsyStr]

theorem utf8Reencode_ascii (body : List Nat) (h : ∀ b ∈ body, b ≤ 0x7F) :
    utf8Reencode body = body := by
  have hdec : utf8DecodeAux none body = body := by
    induction body with
    | nil => rfl
    | cons b rest ih =>
      have hb : b ≤ 0x7F := h b (by simp)
      have hrest : ∀ x ∈ rest, x ≤ 0x7F := fun x hx => h x (by simp [hx])
      simp only [utf8DecodeAux, utf8Step, utf8Classify, if_pos hb]
      simpa using ih hrest
  have henc : ∀ l : List Nat, (∀ b ∈ l, b ≤ 0x7F) → l.flatMap utf8EncodeChar = l := by
    intro l hl
    induction l with
    | nil => rfl
    | cons b rest ih =>
      have hb : b ≤ 0x7F := hl b (by simp)
      have hrest : ∀ x ∈ rest, x ≤ 0x7F := fun x hx => hl x (by simp [hx])
      simp only [List.flatMap_cons, utf8EncodeChar, if_pos hb]
      simpa using ih hrest
  rw [utf8Reencode, hdec]
  exact henc body h



/-! ## C10 -/

/-- C10: for every string `path` and registry state, `isWebhookPath path`
returns `true` exactly when some entry currently in the Registry Store has a
`path` field (case-sensitively) equal to `path`.  The function is a pure
read of the registry — in this embedding it takes the store and returns only
a `Bool`, reflecting that the source performs no mutation. -/
theorem c10_isWebhookPath_iff {α : Type} (registry : List (WebhookRegistryEntry α))
    (path : String) :
    isWebhookPath registry path = true ↔ ∃ e ∈ registry, e.path = path := by
  simp [isWebhookPath, List.find?_isSome]

/-! ## C7 -/

/-- C7: when the existence check returns a subscription whose callback
address already equals the target address `https://<hostName><path>`, then
`register` reports success with an empty result payload, and the outcome is
the same for every upsert transport (in particular no upsert mutation is
issued). -/
theorem c7_already_registered_skips_mutation {α : Type}
    (hostName topic path : String) (handler : α) (dm : DeliveryMethod)
    (registry : List (WebhookRegistryEntry α))
    (edge : WebhookCheckEdge) (rest : List WebhookCheckEdge)
    (tm : String → Except String JsonValue)
    (haddr : edge.node.callbackUrl = "https://" ++ hostName ++ path) :
    register hostName topic path handler dm registry (.ok (edge :: rest)) tm =
      (.ok ⟨true, JsonValue.jobj []⟩,
        registry.filter (fun item => item.topic ≠ topic) ++
          [⟨path, topic, handler⟩]) := by
  simp [register, mustRegisterOf, haddr]

/-- Closed witness for C7 at concrete inputs. -/
theorem c7_already_registered_skips_mutation_witness :
    register "host" "ORDERS_CREATE" "/cb" (0 : Nat) .http []
        (.ok [⟨⟨"gid://s1", "https://host/cb"⟩⟩])
        (fun _ => .error "transport must not be called") =
      (.ok ⟨true, JsonValue.jobj []⟩, [⟨"/cb", "ORDERS_CREATE", 0⟩]) :=
  c7_already_registered_skips_mutation "host" "ORDERS_CREATE" "/cb" 0 .http []
    ⟨⟨"gid://s1", "https://host/cb"⟩⟩ [] (fun _ => .error "transport must not be called") rfl

/-! ## C9 -/

/-- C9: the upsert mutation text and the success decision are keyed
consistently to the delivery method and (truthy) identifier presence: the
built mutation is the fixed shape around `specMutationName`, its
subscription argument uses the `specArgField` name (`callbackUrl` for HTTP,
`arn` for EventBridge), and `isSuccess` holds exactly when the response has
a truthy `data.<same mutation name>.webhookSubscription` chain. -/
theorem c9_mutation_keying_consistent (topic address : String)
    (dm : DeliveryMethod) (webhookId : Option String) (result : JsonValue) :
    buildQuery topic address dm webhookId =
      queryShape (specMutationName dm (¬ jsFalsyStr webhookId))
        (identifierText topic webhookId)
        ("\x7b" ++ specArgField dm ++ ": \"" ++ address ++ "\"\x7d") ∧
    isSuccess result dm webhookId =
      (jsTruthyO (jGet result "data") &&
       jsTruthyO (jGetO (jGet result "data")
         (specMutationName dm (¬ jsFalsyStr webhookId))) &&
       jsTruthyO (jGetO (jGetO (jGet result "data")
         (specMutationName dm (¬ jsFalsyStr webhookId))) "webhookSubscription")) := by
  cases dm <;> by_cases h : jsFalsyStr webhookId = true <;>
    simp [buildQuery, isSuccess, specMutationName, specArgField, queryShape,
      identifierText, h]

/-! ## C4 -/

/-- C4: if any of the three required headers (matched case-insensitively;
JS-falsy values count as absent) is missing, `process` fails immediately
with an `InvalidWebhookError` whose message is built by joining a list
naming exactly the missing headers; the outcome does not depend on the HMAC
primitive (the signature computation is never consulted), and the error
result carries no handler invocation. -/
theorem c4_missing_headers {α : Type} (f g : List Nat → String)
    (registry : List (WebhookRegistryEntry α))
    (headers : List (String × String)) (body : List Nat)
    (hmiss : jsFalsyStr (extractHeaders headers).hmac = true ∨
             jsFalsyStr (extractHeaders headers).topic = true ∨
             jsFalsyStr (extractHeaders headers).domain = true) :
    process f registry headers body =
      Except.error (.invalidWebhookError (missingHeadersMessage headers)) ∧
    process f registry headers body = process g registry headers body ∧
    (shopifyHeaderHmac ∈ missingHeadersOf headers ↔
      jsFalsyStr (extractHeaders headers).hmac = true) ∧
    (shopifyHeaderTopic ∈ missingHeadersOf headers ↔
      jsFalsyStr (extractHeaders headers).topic = true) ∧
    (shopifyHeaderDomain ∈ missingHeadersOf headers ↔
      jsFalsyStr (extractHeaders headers).domain = true) := by
  have hne : missingHeadersOf headers ≠ [] := by
    rcases hmiss with h | h | h <;> simp [missingHeadersOf, h]
  refine ⟨?_, ?_, ?_, ?_, ?_⟩
  · simp [process, hne]
  · simp [process, hne]
  · by_cases h1 : jsFalsyStr (extractHeaders headers).hmac = true <;>
      by_cases h2 : jsFalsyStr (extractHeaders headers).topic = true <;>
      by_cases h3 : jsFalsyStr (extractHeaders headers).domain = true <;>
      simp_all [missingHeadersOf, shopifyHeaderHmac, shopifyHeaderTopic,
        shopifyHeaderDomain]
  · by_cases h1 : jsFalsyStr (extractHeaders headers).hmac = true <;>
      by_cases h2 : jsFalsyStr (extractHeaders headers).topic = true <;>
      by_cases h3 : jsFalsyStr (extractHeaders headers).domain = true <;>
      simp_all [missingHeadersOf, shopifyHeaderHmac, shopifyHeaderTopic,
        shopifyHeaderDomain]
  · by_cases h1 : jsFalsyStr (extractHeaders headers).hmac = true <;>
      by_cases h2 : jsFalsyStr (extractHeaders headers).topic = true <;>
      by_cases h3 : jsFalsyStr (extractHeaders headers).domain = true <;>
      simp_all [missingHeadersOf, shopifyHeaderHmac, shopifyHeaderTopic,
        shopifyHeaderDomain]

/-- Closed witness for C4: a request carrying only the topic header. -/
theorem c4_missing_headers_witness :
    process (fun _ => "h") ([] : List (WebhookRegistryEntry Nat))
        [("X-Shopify-Topic", "t")] [] =
      Except.error
        (.invalidWebhookError (missingHeadersMessage [("X-Shopify-Topic", "t")])) :=
  (c4_missing_headers (fun _ => "h") (fun _ => "g") [] [("X-Shopify-Topic", "t")]
    [] (Or.inl (by decide))).1

/-! ## C5 -/

/-- C5: with all three required headers present (JS-truthy) but the provided
signature different from the hash `process` computes from the body and the
process-wide secret, the result is the "forbidden" status and no handler is
invoked. -/
theorem c5_bad_signature_forbidden {α : Type} (f : List Nat → String)
    (registry : List (WebhookRegistryEntry α))
    (headers : List (String × String)) (body : List Nat)
    (hh : jsFalsyStr (extractHeaders headers).hmac = false)
    (ht : jsFalsyStr (extractHeaders headers).topic = false)
    (hd : jsFalsyStr (extractHeaders headers).domain = false)
    (hsig : f (utf8Reencode body) ≠ (extractHeaders headers).hmac.getD "") :
    process f registry headers body =
      .ok ⟨statusCodeForbidden, [], none⟩ := by
  have hnil : missingHeadersOf headers = [] := by
    simp [missingHeadersOf, hh, ht, hd]
  simp [process, hnil, webhookVerify, safeCompare, hsig]

/-- Closed witness for C5: all headers present, wrong signature, registered
handler never invoked. -/
theorem c5_bad_signature_forbidden_witness :
    process (fun _ => "good")
        [(⟨"/cb", "ORDERS_CREATE", (0 : Nat)⟩ : WebhookRegistryEntry Nat)]
        [("X-Shopify-Hmac-Sha256", "bad"), ("X-Shopify-Topic", "orders/create"),
         ("X-Shopify-Shop-Domain", "d")] [] =
      .ok ⟨statusCodeForbidden, [], none⟩ :=
  c5_bad_signature_forbidden (fun _ => "good") _ _ []
    (by decide) (by decide) (by decide) (by decide)

/-! ## C6 -/

/-- C6: with all three required headers present and a signature matching the
computed hash, but no registry entry whose topic equals the canonicalized
topic header, `process` returns the same "forbidden" outcome as a signature
mismatch (status 403, no response headers, no handler invoked). -/
theorem c6_unknown_topic_forbidden {α : Type} (f : List Nat → String)
    (registry : List (WebhookRegistryEntry α))
    (headers : List (String × String)) (body : List Nat)
    (hh : jsFalsyStr (extractHeaders headers).hmac = false)
    (ht : jsFalsyStr (extractHeaders headers).topic = false)
    (hd : jsFalsyStr (extractHeaders headers).domain = false)
    (hsig : f (utf8Reencode body) = (extractHeaders headers).hmac.getD "")
    (hfind : ∀ e ∈ registry,
      e.topic ≠ canonicalTopic ((extractHeaders headers).topic.getD "")) :
    process f registry headers body =
      .ok ⟨statusCodeForbidden, [], none⟩ := by
  have hnil : missingHeadersOf headers = [] := by
    simp [missingHeadersOf, hh, ht, hd]
  have hfind' : registry.find?
      (fun entry => entry.topic =
        canonicalTopic ((extractHeaders headers).topic.getD "")) = none := by
    rw [List.find?_eq_none]
    intro x hx
    simpa using hfind x hx
  simp [process, hnil, webhookVerify, safeCompare, hsig, hfind']

/-- Closed witness for C6: valid signature, topic registered under a
different key, outcome "forbidden". -/
theorem c6_unknown_topic_forbidden_witness :
    process (fun _ => "sig")
        [(⟨"/cb", "PRODUCTS_CREATE", (0 : Nat)⟩ : WebhookRegistryEntry Nat)]
        [("X-Shopify-Hmac-Sha256", "sig"), ("X-Shopify-Topic", "orders/create"),
         ("X-Shopify-Shop-Domain", "d")] [] =
      .ok ⟨statusCodeForbidden, [], none⟩ :=
  c6_unknown_topic_forbidden (fun _ => "sig") _ _ []
    (by decide) (by decide) (by decide) (by decide)
    (by intro e he; simp at he; simp [he]; decide)

/-! ## Case lemmas for register -/

theorem register_check_error {α : Type} (hostName topic path : String)
    (handler : α) (dm : DeliveryMethod) (registry : List (WebhookRegistryEntry α))
    (e : String) (tm : String → Except String JsonValue) :
    register hostName topic path handler dm registry (.error e) tm =
      (.error e, registry) := by
  simp [register]

theorem register_mut_error {α : Type} (hostName topic path : String)
    (handler : α) (dm : DeliveryMethod) (registry : List (WebhookRegistryEntry α))
    (edges : List WebhookCheckEdge) (e : String)
    (tm : String → Except String JsonValue)
    (hm : mustRegisterOf edges ("https://" ++ hostName ++ path) = true)
    (htm : tm (buildQuery topic ("https://" ++ hostName ++ path) dm
      (webhookIdOf edges)) = .error e) :
    register hostName topic path handler dm registry (.ok edges) tm =
      (.error e, registry) := by
  simp [register, hm, htm]

theorem register_mut_ok {α : Type} (hostName topic path : String)
    (handler : α) (dm : DeliveryMethod) (registry : List (WebhookRegistryEntry α))
    (edges : List WebhookCheckEdge) (respBody : JsonValue)
    (tm : String → Except String JsonValue)
    (hm : mustRegisterOf edges ("https://" ++ hostName ++ path) = true)
    (htm : tm (buildQuery topic ("https://" ++ hostName ++ path) dm
      (webhookIdOf edges)) = .ok respBody) :
    register hostName topic path handler dm registry (.ok edges) tm =
      (.ok ⟨isSuccess respBody dm (webhookIdOf edges), respBody⟩,
        if isSuccess respBody dm (webhookIdOf edges) then
          registry.filter (fun item => item.topic ≠ topic) ++
            [⟨path, topic, handler⟩]
        else registry) := by
  simp [register, hm, htm]

theorem register_skip {α : Type} (hostName topic path : String)
    (handler : α) (dm : DeliveryMethod) (registry : List (WebhookRegistryEntry α))
    (edges : List WebhookCheckEdge)
    (tm : String → Except String JsonValue)
    (hm : mustRegisterOf edges ("https://" ++ hostName ++ path) = false) :
    register hostName topic path handler dm registry (.ok edges) tm =
      (.ok ⟨true, JsonValue.jobj []⟩,
        registry.filter (fun item => item.topic ≠ topic) ++
          [⟨path, topic, handler⟩]) := by
  simp [register, hm]

/-- On a successful registration the store becomes: all prior entries for
other topics, followed by the new entry. -/
theorem register_ok_success_update {α : Type} (hostName topic path : String)
    (handler : α) (dm : DeliveryMethod) (registry : List (WebhookRegistryEntry α))
    (cr : Except String (List WebhookCheckEdge))
    (tm : String → Except String JsonValue)
    (ret : RegisterReturn) (r' : List (WebhookRegistryEntry α))
    (heq : register hostName topic path handler dm registry cr tm = (.ok ret, r'))
    (hs : ret.success = true) :
    r' = registry.filter (fun item => item.topic ≠ topic) ++
      [⟨path, topic, handler⟩] := by
  cases cr with
  | error e =>
    rw [register_check_error] at heq
    injection heq with h1 h2
    exact Except.noConfusion h1
  | ok edges =>
    by_cases hm : mustRegisterOf edges ("https://" ++ hostName ++ path) = true
    · cases htm : tm (buildQuery topic ("https://" ++ hostName ++ path) dm
        (webhookIdOf edges)) with
      | error e =>
        rw [register_mut_error hostName topic path handler dm registry edges
          e tm hm htm] at heq
        injection heq with h1 h2
        exact Except.noConfusion h1
      | ok respBody =>
        rw [register_mut_ok hostName topic path handler dm registry edges
          respBody tm hm htm] at heq
        injection heq with h1 h2
        injection h1 with h3
        have hsucc : isSuccess respBody dm (webhookIdOf edges) = true := by
          rw [← h3] at hs
          exact hs
        rw [← h2]
        simp [hsucc]
    · rw [register_skip hostName topic path handler dm registry edges tm
        (by simpa using hm)] at heq
      injection heq with h1 h2
      exact h2.symm

/-! ## C3 -/

/-- Registry states reachable from the empty store by successful `register`
calls. -/
inductive ReachableRegistry {α : Type} : List (WebhookRegistryEntry α) → Prop
  | empty : ReachableRegistry []
  | step {r r' : List (WebhookRegistryEntry α)} (hostName topic path : String)
      (handler : α) (dm : DeliveryMethod)
      (cr : Except String (List WebhookCheckEdge))
      (tm : String → Except String JsonValue) (ret : RegisterReturn)
      (hr : ReachableRegistry r)
      (heq : register hostName topic path handler dm r cr tm = (.ok ret, r'))
      (hs : ret.success = true) : ReachableRegistry r'

theorem topics_nodup_update {α : Type} (r : List (WebhookRegistryEntry α))
    (T p : String) (handler : α)
    (hr : (r.map (fun e => e.topic)).Nodup) :
    (((r.filter (fun item => item.topic ≠ T)) ++
      [(⟨p, T, handler⟩ : WebhookRegistryEntry α)]).map
      (fun e => e.topic)).Nodup := by
  rw [List.map_append]
  refine List.Nodup.append ?_ (by simp) ?_
  · exact hr.sublist ((List.filter_sublist r).map _)
  · intro x hx hx'
    simp only [List.map_cons, List.map_nil, List.mem_singleton] at hx'
    subst hx'
    simp only [List.mem_map, List.mem_filter] at hx
    obtain ⟨e, ⟨_, he⟩, het⟩ := hx
    simp only [ne_eq, decide_not, Bool.not_eq_eq_eq_not, Bool.not_true,
      decide_eq_false_iff_not] at he
    exact he het

theorem filter_topic_after_update {α : Type} (r : List (WebhookRegistryEntry α))
    (T p : String) (handler : α) :
    ((r.filter (fun item => item.topic ≠ T)) ++
      [(⟨p, T, handler⟩ : WebhookRegistryEntry α)]).filter
      (fun e => e.topic = T) = [⟨p, T, handler⟩] := by
  rw [List.filter_append]
  have hnil : (r.filter (fun item => item.topic ≠ T)).filter
      (fun e => e.topic = T) = [] := by
    refine List.filter_eq_nil_iff.mpr ?_
    intro a ha
    simp only [List.mem_filter, ne_eq, decide_not, Bool.not_eq_eq_eq_not,
      Bool.not_true, decide_eq_false_iff_not] at ha
    simpa using ha.2
  rw [hnil]
  simp

/-- C3: along any sequence of successful `register` calls starting from the
empty store, the Registry Store never holds two entries for the same topic;
and after two successive successful registrations of topic `T`, the entries
for `T` are exactly the single entry carrying the second call's path and
handler. -/
theorem c3_registry_topics_unique {α : Type} :
    (∀ r : List (WebhookRegistryEntry α), ReachableRegistry r →
      (r.map (fun e => e.topic)).Nodup) ∧
    (∀ (r0 r1 r2 : List (WebhookRegistryEntry α))
      (host1 host2 T p1 p2 : String) (h1 h2 : α) (dm1 dm2 : DeliveryMethod)
      (cr1 cr2 : Except String (List WebhookCheckEdge))
      (tm1 tm2 : String → Except String JsonValue)
      (ret1 ret2 : RegisterReturn),
      register host1 T p1 h1 dm1 r0 cr1 tm1 = (.ok ret1, r1) →
      ret1.success = true →
      register host2 T p2 h2 dm2 r1 cr2 tm2 = (.ok ret2, r2) →
      ret2.success = true →
      r2.filter (fun e => e.topic = T) = [⟨p2, T, h2⟩]) := by
  constructor
  · intro r hr
    induction hr with
    | empty => simp
    | step hostName topic path handler dm cr tm ret hr heq hs ih =>
      rw [register_ok_success_update hostName topic path handler dm _ cr tm
        ret _ heq hs]
      exact topics_nodup_update _ topic path handler ih
  · intro r0 r1 r2 host1 host2 T p1 p2 h1 h2 dm1 dm2 cr1 cr2 tm1 tm2 ret1 ret2
      heq1 hs1 heq2 hs2
    rw [register_ok_success_update host2 T p2 h2 dm2 r1 cr2 tm2 ret2 r2
      heq2 hs2]
    exact filter_topic_after_update r1 T p2 h2

/-- A GraphQL response containing the success node for an HTTP create
mutation, used by several concrete scenarios. -/
def httpCreateSuccessResponse : JsonValue :=
  .jobj [("data", .jobj [("webhookSubscriptionCreate",
    .jobj [("webhookSubscription", .jobj [("id", .jstr "gid://webhook/1")])])])]

/-- Closed witness for C3: two successful registrations of topic `T` from
the empty store leave a single-entry store holding the second handler. -/
theorem c3_registry_topics_unique_witness :
    (([⟨"/b", "T", (1 : Nat)⟩] : List (WebhookRegistryEntry Nat)).map
      (fun e => e.topic)).Nodup ∧
    ([(⟨"/b", "T", (1 : Nat)⟩ : WebhookRegistryEntry Nat)].filter
      (fun e => e.topic = "T") = [⟨"/b", "T", 1⟩]) := by
  constructor
  · exact c3_registry_topics_unique.1 _
      (ReachableRegistry.step "host" "T" "/b" 1 .http (.ok [])
        (fun _ => .ok httpCreateSuccessResponse) ⟨true, httpCreateSuccessResponse⟩
        (ReachableRegistry.step "host" "T" "/a" 0 .http (.ok [])
          (fun _ => .ok httpCreateSuccessResponse)
          ⟨true, httpCreateSuccessResponse⟩ ReachableRegistry.empty rfl rfl)
        rfl rfl)
  · exact c3_registry_topics_unique.2 [] [⟨"/a", "T", 0⟩] [⟨"/b", "T", 1⟩]
      "host" "host" "T" "/a" "/b" 0 1 .http .http (.ok []) (.ok [])
      (fun _ => .ok httpCreateSuccessResponse)
      (fun _ => .ok httpCreateSuccessResponse)
      ⟨true, httpCreateSuccessResponse⟩ ⟨true, httpCreateSuccessResponse⟩
      rfl rfl rfl rfl

/-! ## C8 -/

/-- C8: atomicity of registration.  A failing existence-check transport call
propagates its failure unchanged and leaves the store as it was; a failing
upsert transport call does the same; and whenever `register` returns without
success (`success = false`, e.g. a mutation response lacking the expected
success node), the store is exactly as before the call. -/
theorem c8_store_unchanged_on_failure {α : Type} (hostName topic path : String)
    (handler : α) (dm : DeliveryMethod) (registry : List (WebhookRegistryEntry α))
    (cr : Except String (List WebhookCheckEdge))
    (tm : String → Except String JsonValue) :
    (∀ e, cr = .error e →
      register hostName topic path handler dm registry cr tm =
        (.error e, registry)) ∧
    (∀ e edges, cr = .ok edges →
      mustRegisterOf edges ("https://" ++ hostName ++ path) = true →
      (∀ q, tm q = .error e) →
      register hostName topic path handler dm registry cr tm =
        (.error e, registry)) ∧
    (∀ ret, (register hostName topic path handler dm registry cr tm).1 = .ok ret →
      ret.success = false →
      (register hostName topic path handler dm registry cr tm).2 = registry) := by
  refine ⟨?_, ?_, ?_⟩
  · intro e he
    subst he
    exact register_check_error hostName topic path handler dm registry e tm
  · intro e edges he hm htm
    subst he
    exact register_mut_error hostName topic path handler dm registry edges
      e tm hm (htm _)
  · intro ret hfst hs
    cases cr with
    | error e =>
      rw [register_check_error] at hfst
      exact Except.noConfusion hfst
    | ok edges =>
      by_cases hm : mustRegisterOf edges ("https://" ++ hostName ++ path) = true
      · cases htm : tm (buildQuery topic ("https://" ++ hostName ++ path) dm
          (webhookIdOf edges)) with
        | error e =>
          rw [register_mut_error hostName topic path handler dm registry
            edges e tm hm htm] at hfst
          exact Except.noConfusion hfst
        | ok respBody =>
          rw [register_mut_ok hostName topic path handler dm registry edges
            respBody tm hm htm] at hfst ⊢
          injection hfst with h3
          have hfail : isSuccess respBody dm (webhookIdOf edges) = false := by
            rw [← h3] at hs
            exact hs
          simp [hfail]
      · rw [register_skip hostName topic path handler dm registry edges tm
          (by simpa using hm)] at hfst
        injection hfst with h3
        rw [← h3] at hs
        exact absurd hs (by simp)

/-- Closed witness for C8: a check-transport failure and an upsert-transport
failure both propagate and leave a nonempty store untouched. -/
theorem c8_store_unchanged_on_failure_witness :
    register "host" "T" "/a" (5 : Nat) .http [⟨"/x", "OTHER", 7⟩]
        (.error "network down") (fun _ => .ok (JsonValue.jobj [])) =
      (.error "network down", [⟨"/x", "OTHER", 7⟩]) ∧
    register "host" "T" "/a" (5 : Nat) .http [⟨"/x", "OTHER", 7⟩]
        (.ok []) (fun _ => .error "mutation failed") =
      (.error "mutation failed", [⟨"/x", "OTHER", 7⟩]) := by
  constructor
  · exact (c8_store_unchanged_on_failure "host" "T" "/a" 5 .http
      [⟨"/x", "OTHER", 7⟩] (.error "network down")
      (fun _ => .ok (JsonValue.jobj []))).1 "network down" rfl
  · exact (c8_store_unchanged_on_failure "host" "T" "/a" 5 .http
      [⟨"/x", "OTHER", 7⟩] (.ok []) (fun _ => .error "mutation failed")).2.1
      "mutation failed" [] rfl rfl (fun _ => rfl)

/-! ## Concrete material for the end-to-end scenarios -/

/-- A concrete, injective-on-bytes stand-in for the abstract
`base64(HMAC-SHA256(secret, ·))` primitive, used to instantiate closed
scenarios: two hex-style characters per byte. -/
def exHash (l : List Nat) : String :=
  String.mk (l.flatMap (fun b => [Char.ofNat (65 + b / 16 % 16),
    Char.ofNat (65 + b % 16)]))

/-- The bytes of the body `{"id":1}`. -/
def sampleBody : List Nat := [123, 34, 105, 100, 34, 58, 49, 125]

/-- Headers of the dispatched request of the end-to-end scenario: the given
signature, topic `orders/create`, domain `shop.example.com`. -/
def sampleHeaders (sig : String) : List (String × String) :=
  [(shopifyHeaderHmac, sig), (shopifyHeaderTopic, "orders/create"),
   (shopifyHeaderDomain, "shop.example.com")]

/-! ## C1 -/

/-- Counterexample to C1 as stated: running the scenario literally —
`register` called with topic `orders/create` (registration succeeds and
stores the topic verbatim), then `process` with topic header
`orders/create`, a correct signature over the exact bytes of
`{"id":1}` and domain `shop.example.com` — returns the "forbidden"
status with no handler invocation, not "ok" with the handler called:
the store keys entries by the verbatim registered topic, while dispatch
looks up the canonicalized (`ORDERS_CREATE`) form. -/
theorem c1_counterexample :
    register "host" "orders/create" "/cb" (0 : Nat) .http []
        (.ok []) (fun _ => .ok httpCreateSuccessResponse) =
      (.ok ⟨true, httpCreateSuccessResponse⟩, [⟨"/cb", "orders/create", 0⟩]) ∧
    exHash (utf8Reencode sampleBody) = exHash sampleBody ∧
    process exHash [⟨"/cb", "orders/create", (0 : Nat)⟩]
        (sampleHeaders (exHash sampleBody)) sampleBody =
      .ok ⟨statusCodeForbidden, [], none⟩ :=
  ⟨rfl, rfl, rfl⟩

/-- C1 (amended): the end-to-end scenario holds when `register` is called
with the canonical topic form `ORDERS_CREATE` (the form the GraphQL query
text requires and the form the store keys entries by): the existence check
returns no prior subscription, the mutation response carries the success
node, and a subsequent `process` call with topic header `orders/create`, a
correct signature over the bytes of `{"id":1}` and domain
`shop.example.com` invokes the registered handler with
`("ORDERS_CREATE", "shop.example.com", <bytes of {"id":1}>)` and returns
the "ok" status. -/
theorem c1_end_to_end {α : Type} (H : α) (f : List Nat → String)
    (hne : f sampleBody ≠ "") :
    register "host" "ORDERS_CREATE" "/cb" H .http []
        (.ok []) (fun _ => .ok httpCreateSuccessResponse) =
      (.ok ⟨true, httpCreateSuccessResponse⟩, [⟨"/cb", "ORDERS_CREATE", H⟩]) ∧
    process f [⟨"/cb", "ORDERS_CREATE", H⟩] (sampleHeaders (f sampleBody))
        sampleBody =
      .ok ⟨statusCodeOk, [],
        some (H, "ORDERS_CREATE", "shop.example.com", sampleBody)⟩ := by
  constructor
  · rfl
  · have hex : extractHeaders (sampleHeaders (f sampleBody)) =
        ⟨some (f sampleBody), some "orders/create", some "shop.example.com"⟩ :=
      rfl
    have hmiss : missingHeadersOf (sampleHeaders (f sampleBody)) = [] := by
      simp [missingHeadersOf, hex, jsFalsyStr, hne]
    have hver : webhookVerify f sampleBody (f sampleBody) = true := by
      rw [webhookVerify, show utf8Reencode sampleBody = sampleBody from rfl]
      simp [safeCompare]
    have hcanon : canonicalTopic "orders/create" = "ORDERS_CREATE" := rfl
    simp [process, hmiss, hex, hver, hcanon, List.find?]

/-- Closed witness for C1 (amended) at the concrete hash stand-in and a
concrete handler value. -/
theorem c1_end_to_end_witness :
    register "host" "ORDERS_CREATE" "/cb" (0 : Nat) .http []
        (.ok []) (fun _ => .ok httpCreateSuccessResponse) =
      (.ok ⟨true, httpCreateSuccessResponse⟩, [⟨"/cb", "ORDERS_CREATE", 0⟩]) ∧
    process exHash [⟨"/cb", "ORDERS_CREATE", (0 : Nat)⟩]
        (sampleHeaders (exHash sampleBody)) sampleBody =
      .ok ⟨statusCodeOk, [],
        some (0, "ORDERS_CREATE", "shop.example.com", sampleBody)⟩ :=
  c1_end_to_end 0 exHash (by decide)

/-! ## C2 -/

/-- Counterexample to C2 as stated: for the body `[0xFF]` (not valid
UTF-8), the signature computed over the exact byte sequence is rejected by
the verification step, while the signature computed over the UTF-8
re-encoding `[0xEF, 0xBF, 0xBD]` (the replacement character) is accepted —
the code re-encodes the bytes (`body.toString('utf-8')` hashed as UTF-8)
before the HMAC is taken. -/
theorem c2_counterexample :
    utf8Reencode [0xFF] = [0xEF, 0xBF, 0xBD] ∧
    webhookVerify exHash [0xFF] (exHash [0xFF]) = false ∧
    webhookVerify exHash [0xFF] (exHash [0xEF, 0xBF, 0xBD]) = true := by
  refine ⟨rfl, by decide, by decide⟩

/-- C2 (amended): for every hash primitive, signature and raw body,
`process`'s verification step accepts the signature exactly when it equals
the hash of the UTF-8 re-encoding of the body; for bodies consisting of
ASCII bytes (in particular any valid JSON in ASCII) the re-encoding is the
identity, so there the signature covers the exact byte sequence. -/
theorem c2_signature_exact_bytes (f : List Nat → String) (sig : String)
    (body : List Nat) :
    (webhookVerify f body sig = true ↔ f (utf8Reencode body) = sig) ∧
    ((∀ b ∈ body, b ≤ 0x7F) → utf8Reencode body = body) := by
  constructor
  · simp [webhookVerify, safeCompare]
  · exact utf8Reencode_ascii body

/-- Closed witness for C2 (amended): the ASCII body `{"id":1}` is preserved
by the re-encoding. -/
theorem c2_signature_exact_bytes_witness :
    utf8Reencode sampleBody = sampleBody :=
  (c2_signature_exact_bytes exHash "" sampleBody).2 (by decide)

end Webhooks
